import Mathlib

/-!
Verification development for the AdGen multi-stage video-generation pipeline.

The JavaScript sources are shallowly embedded: JavaScript strings are lists of
characters, JavaScript numbers are `Option ℚ` (`none` models `NaN`, which
propagates through arithmetic and compares unequal to everything, including
itself; `Infinity` is outside the modelled range and is treated like `NaN`),
fallible operations return `Option`/`Except`, and the effects of the pipeline
(task-registry updates, generation requests, retry attempts, assembly inputs)
are returned as explicit logs.
-/

namespace AdGen

/-- JavaScript strings, modelled as lists of characters. -/
abbrev JStr := List Char

/-- Coerce a Lean string literal into the JavaScript string model. -/
def js (s : String) : JStr := s.data

/-- JavaScript numbers: `some q` is a finite value, `none` is `NaN`. -/
abbrev JsNum := Option ℚ

/-- JavaScript `+` on numbers: `NaN` propagates. -/
def jsAdd : JsNum → JsNum → JsNum
  | some a, some b => some (a + b)
  | _, _ => none

/-- JavaScript `-` on numbers: `NaN` propagates. -/
def jsSub : JsNum → JsNum → JsNum
  | some a, some b => some (a - b)
  | _, _ => none

/-- JavaScript `==` on numbers: `NaN` compares unequal to everything. -/
def jsEqNum : JsNum → JsNum → Bool
  | some a, some b => decide (a = b)
  | _, _ => false

/-- JavaScript `<=` on numbers: comparisons with `NaN` are false. -/
def jsLeNum : JsNum → JsNum → Bool
  | some a, some b => decide (a ≤ b)
  | _, _ => false

/-- JavaScript `>` on numbers: comparisons with `NaN` are false. -/
def jsGtNum : JsNum → JsNum → Bool
  | some a, some b => decide (b < a)
  | _, _ => false

/-- Models `s.split(sep)` for a one-character separator: splits at every occurrence. -/
def splitCh (sep : Char) : JStr → List JStr
  | [] => [[]]
  | c :: rest =>
    match splitCh sep rest with
    | [] => [[]]
    | g :: gs => if c == sep then [] :: g :: gs else (c :: g) :: gs

/-- Does `s` start with `p`?  Models `String.prototype.startsWith`. -/
def startsWithJ : JStr → JStr → Bool
  | _, [] => true
  | [], _ :: _ => false
  | c :: s, p :: ps => c == p && startsWithJ s ps

/-- Split `s` at the first occurrence of the (nonempty) separator `sep`,
returning the parts before and after it, or `none` if `sep` does not occur. -/
def splitFirstAt (sep : JStr) : JStr → Option (JStr × JStr)
  | [] => none
  | c :: rest =>
    if startsWithJ (c :: rest) sep then some ([], (c :: rest).drop sep.length)
    else
      match splitFirstAt sep rest with
      | some (pre, post) => some (c :: pre, post)
      | none => none

/-- Models `s.includes(sep)` for a nonempty separator. -/
def jsIncludes (s sep : JStr) : Bool := (splitFirstAt sep s).isSome

/-- Models the `parts.length === 2` path of `s.split(sep)`: the result is
`some (parts[0], parts[1])` exactly when `sep` occurs exactly once in `s`. -/
def jsSplit2 (sep s : JStr) : Option (JStr × JStr) :=
  match splitFirstAt sep s with
  | some (a, b) =>
    match splitFirstAt sep b with
    | none => some (a, b)
    | some _ => none
  | none => none

/-- Models `.replace(/seconds?/g, "")` of the duration text: left-to-right removal of every occurrence of
`second` greedily extended by a following `s`. -/
def stripSeconds : JStr → JStr
  | 's' :: 'e' :: 'c' :: 'o' :: 'n' :: 'd' :: 's' :: rest => stripSeconds rest
  | 's' :: 'e' :: 'c' :: 'o' :: 'n' :: 'd' :: rest => stripSeconds rest
  | c :: rest => c :: stripSeconds rest
  | [] => []

/-- White space accepted by `parseInt`/`parseFloat` (the subset relevant to
script lines, which are already split at newlines). -/
def isWs (c : Char) : Bool := c == ' ' || c == '\t' || c == '\n' || c == '\r'

/-- Drop leading white space. -/
def skipWs : JStr → JStr
  | c :: rest => if isWs c then skipWs rest else c :: rest
  | [] => []

/-- Decimal digit test. -/
def isDigitJ (c : Char) : Bool := decide ('0' ≤ c) && decide (c ≤ '9')

/-- Value of a decimal digit. -/
def digVal (c : Char) : ℕ := c.toNat - '0'.toNat

/-- Take the longest run of leading decimal digits. -/
def takeDigits : JStr → List ℕ × JStr
  | c :: rest =>
    if isDigitJ c then
      let p := takeDigits rest
      (digVal c :: p.1, p.2)
    else ([], c :: rest)
  | [] => ([], [])

/-- Read a digit list as a natural number. -/
def digitsToNat (l : List ℕ) : ℕ := l.foldl (fun a d => a * 10 + d) 0

/-- Hexadecimal digit test. -/
def isHexDigitJ (c : Char) : Bool :=
  isDigitJ c || (decide ('a' ≤ c) && decide (c ≤ 'f')) || (decide ('A' ≤ c) && decide (c ≤ 'F'))

/-- Value of a hexadecimal digit. -/
def hexVal (c : Char) : ℕ :=
  if isDigitJ c then digVal c
  else if decide ('a' ≤ c) && decide (c ≤ 'f') then c.toNat - 'a'.toNat + 10
  else c.toNat - 'A'.toNat + 10

/-- Take the longest run of leading hexadecimal digits. -/
def takeHexDigits : JStr → List ℕ × JStr
  | c :: rest =>
    if isHexDigitJ c then
      let p := takeHexDigits rest
      (hexVal c :: p.1, p.2)
    else ([], c :: rest)
  | [] => ([], [])

/-- Read a hexadecimal digit list as a natural number. -/
def hexToNat (l : List ℕ) : ℕ := l.foldl (fun a d => a * 16 + d) 0

/-- Signed body of `parseInt` after white space and sign handling. -/
def jsParseIntSigned (sign : ℤ) : JStr → Option ℤ
  | '0' :: 'x' :: r =>
    let p := takeHexDigits r
    if p.1.isEmpty then none else some (sign * hexToNat p.1)
  | '0' :: 'X' :: r =>
    let p := takeHexDigits r
    if p.1.isEmpty then none else some (sign * hexToNat p.1)
  | s =>
    let p := takeDigits s
    if p.1.isEmpty then none else some (sign * digitsToNat p.1)

/-- JavaScript `parseInt(s)` (radix 10, or 16 after a `0x` prefix):
leading white space and sign, then the longest digit prefix; `none` is `NaN`. -/
def jsParseInt (s : JStr) : Option ℤ :=
  match skipWs s with
  | '-' :: r => jsParseIntSigned (-1) r
  | '+' :: r => jsParseIntSigned 1 r
  | r => jsParseIntSigned 1 r

/-- Ten to a natural power, as a rational. -/
def pow10 : ℕ → ℚ
  | 0 => 1
  | n + 1 => 10 * pow10 n

/-- Exponent digits of a decimal literal; an invalid exponent part is ignored
(the longest valid literal prefix wins, so `1e-` parses as `1`). -/
def parseExpDigits (sign : ℤ) (s : JStr) : ℤ :=
  let p := takeDigits s
  if p.1.isEmpty then 0 else sign * digitsToNat p.1

/-- Optional exponent part of a decimal literal. -/
def parseExp : JStr → ℤ
  | 'e' :: '+' :: r => parseExpDigits 1 r
  | 'e' :: '-' :: r => parseExpDigits (-1) r
  | 'e' :: r => parseExpDigits 1 r
  | 'E' :: '+' :: r => parseExpDigits 1 r
  | 'E' :: '-' :: r => parseExpDigits (-1) r
  | 'E' :: r => parseExpDigits 1 r
  | _ => 0

/-- Scale a rational by a signed power of ten. -/
def applyExp (q : ℚ) (e : ℤ) : ℚ :=
  if 0 ≤ e then q * pow10 e.toNat else q / pow10 (-e).toNat

/-- Unsigned body of `parseFloat`: the longest decimal-literal prefix
`digits [. digits] [exponent]`, requiring at least one mantissa digit. -/
def jsParseFloatBody (s : JStr) : Option ℚ :=
  let ip := takeDigits s
  match ip.2 with
  | '.' :: r2 =>
    let fp := takeDigits r2
    if ip.1.isEmpty && fp.1.isEmpty then none
    else
      let mant : ℚ := (digitsToNat ip.1 : ℚ) + (digitsToNat fp.1 : ℚ) / pow10 fp.1.length
      some (applyExp mant (parseExp fp.2))
  | _ =>
    if ip.1.isEmpty then none
    else some (applyExp (digitsToNat ip.1 : ℚ) (parseExp ip.2))

/-- JavaScript `parseFloat(s)`: leading white space, sign, then the longest
decimal-literal prefix; `none` is `NaN` (and stands in for `Infinity` too,
which is outside the modelled numeric range). -/
def jsParseFloat (s : JStr) : JsNum :=
  match skipWs s with
  | '-' :: r => (jsParseFloatBody r).map (fun q => -q)
  | '+' :: r => jsParseFloatBody r
  | r => jsParseFloatBody r

/-! ## Scene decomposition (`VideoGenerator.parseScene`, part_000 lines 141-210) -/

/-- One scene record, with the field names of the source object literal. -/
structure Scene where
  text : JStr
  duration : JsNum
  scene_number : JsNum
  start_time : JsNum
  end_time : JsNum
deriving DecidableEq, Repr

/-- Scene-marker constant of the qualifying-line test. -/
def sceneMarker : JStr := js "SCENE"

/-- Duration-delimiter constant of the qualifying-line test. -/
def durationDelim : JStr := js "| Duration:"

/-- Fixed realism/continuity directive prepended to every scene description. -/
def realismDirective : JStr :=
  js "This is a high-quality scene of live film captured by camera not photo, not cartoon. Remember this. Everything of the scene(door, trees, people, etc.) is sharp and clear. This is the real scene. This is the most important thing. Like Real handsome men and beautiful women, Real Environment, The Real scene. **manequins mustn\x27t move. People should be real and not cartoonish and overlay text should be real.** When describing a mirror, the image reflected in the mirror and the image outside must be exactly the same. description: "

/-- Indexing a split result, as JavaScript array indexing: out-of-range is
`undefined` (`none`). -/
def jsAt (l : List JStr) (i : ℕ) : Option JStr := l.get? i

/-- Models `parseInt` applied to a possibly-`undefined` argument: `parseInt(undefined)`
coerces `undefined` to the string `"undefined"` and yields `NaN`. -/
def jsParseIntOpt : Option JStr → Option ℤ
  | some s => jsParseInt s
  | none => none

/-- String concatenation with a possibly-`undefined` right operand, which
JavaScript coerces to the literal text `undefined`. -/
def concatOpt (a : JStr) (b : Option JStr) : JStr := a ++ b.getD (js "undefined")

/-- Cast a `parseInt` result into the numeric model. -/
def numOfInt : Option ℤ → JsNum
  | some z => some (z : ℚ)
  | none => none

/-- One iteration of the line loop of `parseScene`: for a qualifying line
(starts with the scene marker and contains the duration delimiter, with the
delimiter occurring exactly once) it returns the description, duration and
scene number that the source pushes; `parseInt`/`parseFloat` never throw in
JavaScript, so unparseable fields yield `NaN`, not a skipped line. -/
def parseSceneLine (line : JStr) : Option (JStr × JsNum × JsNum) :=
  if startsWithJ line sceneMarker && jsIncludes line durationDelim then
    let scenePart := (splitCh ':' line).headD []
    let sceneNumber := numOfInt (jsParseIntOpt (jsAt (splitCh ' ' scenePart) 1))
    match jsSplit2 durationDelim line with
    | some (p0, p1) =>
      let description := concatOpt realismDirective (jsAt (splitCh ':' p0) 1)
      let durationStr := stripSeconds p1
      let duration := jsParseFloat durationStr
      some (description, duration, sceneNumber)
    | none => none
  else none

/-- First pass of `parseScene`: scan the lines, pushing a scene record with
provisional start/end times from the running `currentTime`. -/
def firstPass (t : JsNum) : List JStr → List Scene
  | [] => []
  | line :: rest =>
    match parseSceneLine line with
    | some (desc, dur, num) =>
      { text := desc, duration := dur, scene_number := num,
        start_time := t, end_time := jsAdd t dur } :: firstPass (jsAdd t dur) rest
    | none => firstPass t rest

/-- Comparator discipline of `scenes.sort((a, b) => a.scene_number - b.scene_number)`:
`a` may stay in front of `b` unless the comparator is positive (a `NaN`
comparator value is treated as not positive, as the engines do). -/
def sceneLe (a b : Scene) : Bool := !(jsGtNum (jsSub a.scene_number b.scene_number) (some 0))

/-- Stable insertion of a later element behind every earlier element it need
not precede. -/
def insertScene (x : Scene) : List Scene → List Scene
  | [] => [x]
  | y :: ys => if sceneLe y x then y :: insertScene x ys else x :: y :: ys

/-- Models `Array.prototype.sort` with the scene-number comparator, modelled as a
stable insertion sort (for the numeric comparator this is the sorted stable
order the specification of `sort` mandates). -/
def sortScenes (l : List Scene) : List Scene := l.foldl (fun acc x => insertScene x acc) []

/-- Second pass of `parseScene`: recompute start/end times by prefix-summing
durations in sorted order. -/
def recomputeTimes (t : JsNum) : List Scene → List Scene
  | [] => []
  | s :: rest =>
    { s with start_time := t, end_time := jsAdd t s.duration }
      :: recomputeTimes (jsAdd t s.duration) rest

/-- Models `VideoGenerator.parseScene`: split the response into lines, collect the
qualifying scene records, sort them by scene number, then recompute times. -/
def parseScene (aiResponse : JStr) : List Scene :=
  recomputeTimes (some 0) (sortScenes (firstPass (some 0) (splitCh '\n' aiResponse)))

/-- Example script of the specification's example scenario. -/
def exampleScript : JStr :=
  js "SCENE 1: A sunrise | Duration: 10 seconds\nSCENE 2: A sunset | Duration: 10 seconds"

/-! ## Task registry (`TaskManager`, GenServer service) -/

/-- Task record, with the fields `TaskManager.createTask` initializes. -/
structure Task where
  id : String
  type : String
  status : String
  progress : ℕ
  message : String
  data : Option JStr
  createdAt : ℕ
  updatedAt : ℕ
  error : Option String
deriving DecidableEq, Repr

/-- Partial update object passed to `updateTask`; `none` fields are absent
properties, which `Object.assign` leaves untouched. -/
structure TaskUpdates where
  status : Option String := none
  progress : Option ℕ := none
  message : Option String := none
  data : Option (Option JStr) := none
  error : Option String := none
deriving DecidableEq, Repr

/-- Models `Object.assign(task, updates, { updatedAt: now })`. -/
def applyUpdates (t : Task) (u : TaskUpdates) (now : ℕ) : Task :=
  { t with
    status := u.status.getD t.status
    progress := u.progress.getD t.progress
    message := u.message.getD t.message
    data := u.data.getD t.data
    error := (u.error.map some).getD t.error
    updatedAt := now }

/-- In-memory task map, as an association list keyed by task id. -/
abbrev Registry := List (String × Task)

/-- Models `this.tasks.get(taskId)`. -/
def lookupTask : Registry → String → Option Task
  | [], _ => none
  | (k, t) :: rest, id => if k == id then some t else lookupTask rest id

/-- Models `this.tasks.set(taskId, task)` for an existing key: replace the entry. -/
def setTask : Registry → String → Task → Registry
  | [], _, _ => []
  | (k, t) :: rest, id, t' => if k == id then (k, t') :: rest else (k, t) :: setTask rest id t'

/-- Error message thrown when the id is unknown. -/
def notFoundMsg (id : String) : String := "Task " ++ id ++ " not found"

/-- Models `TaskManager.createTask`: a fresh task starts `pending` at progress 0. -/
def createTask (id ttype : String) (d : Option JStr) (now : ℕ) : Task :=
  { id := id, type := ttype, status := "pending", progress := 0,
    message := "Task created", data := d, createdAt := now, updatedAt := now, error := none }

/-- Models `TaskManager.updateTask`: look the task up; throw `NotFound` if absent,
otherwise merge the given fields and refresh `updatedAt`.  The returned
registry is the post-state (unchanged when the lookup failed). -/
def updateTask (r : Registry) (id : String) (u : TaskUpdates) (now : ℕ) :
    Registry × Except String Task :=
  match lookupTask r id with
  | none => (r, Except.error (notFoundMsg id))
  | some t =>
    let t' := applyUpdates t u now
    (setTask r id t', Except.ok t')

/-! ## External collaborators

The pipeline's collaborators (OpenAI, RunwayML, the file system, `path`,
FFmpeg) are opaque capabilities.  They are modelled as oracle fields of one
`Providers` record; a stage attempt succeeds or fails according to the
corresponding oracle. -/

/-- Outcomes of every external call the pipeline makes. -/
structure Providers where
  /-- Outcome of the OpenAI script-generation call in `generateScript`. -/
  script : Except String JStr
  /-- Did attempt `a` for scene `i` of the Visual Stage (RunwayML
  `textToImage` plus the image download) succeed? -/
  imageAttempt : ℕ → ℕ → Bool
  /-- Models `fs.readFileSync`: `none` models a thrown read error. -/
  readFile : JStr → Option JStr
  /-- Models `Buffer.toString('base64')`. -/
  base64 : JStr → JStr
  /-- Outcome of the per-scene OpenAI motion-prompt call in `generate`. -/
  motionPrompt : ℕ → Except String JStr
  /-- Did attempt `a` for scene `i` of the Clip Stage (RunwayML
  `imageToVideo` plus the video download) succeed? -/
  videoAttempt : ℕ → ℕ → Bool
  /-- Models `this.outputDir`. -/
  outputDir : JStr
  /-- Models `fs.pathExists` for pre-existing files. -/
  pathExists : JStr → Bool
  /-- Models `path.isAbsolute`. -/
  isAbsolutePath : JStr → Bool
  /-- Models `path.resolve dir file`. -/
  resolvePath : JStr → JStr → JStr
  /-- Did the manifest `fs.writeFile` succeed? -/
  writeOk : Bool
  /-- Did the FFmpeg `exec` succeed? -/
  execOk : Bool
  /-- Did the manifest `fs.remove` succeed? -/
  removeOk : Bool
  /-- Timestamp part of the combined-video filename. -/
  timestamp : JStr

/-- Models `path.join`, Windows flavour (normalization is not modelled). -/
def pathJoin (dir file : JStr) : JStr := dir ++ js "\\" ++ file

/-- Decimal digits of a natural number (fuel-based so that it computes in the
kernel). -/
def natDigitsAux : ℕ → ℕ → JStr
  | 0, _ => []
  | fuel + 1, n =>
    if n < 10 then [Char.ofNat (48 + n)]
    else natDigitsAux fuel (n / 10) ++ [Char.ofNat (48 + n % 10)]

/-- Decimal representation of a natural number. -/
def natToChars (n : ℕ) : JStr := natDigitsAux (n + 1) n

/-- Models `String(n).padStart(2, '0')`. -/
def pad2 (n : ℕ) : JStr :=
  let s := natToChars n
  if s.length < 2 then '0' :: s else s

/-- Positional image filename `image_NN.png` for scene index `i`. -/
def imageFilename (i : ℕ) : JStr := js "image_" ++ pad2 (i + 1) ++ js ".png"

/-- Positional clip filename `video_NN.mp4` for scene index `i`. -/
def videoFilename (i : ℕ) : JStr := js "video_" ++ pad2 (i + 1) ++ js ".mp4"

/-- JavaScript truthiness of a string-or-`null` value. -/
def jsTruthyS : Option JStr → Bool
  | some s => !s.isEmpty
  | none => false

/-! ## Visual Stage (`ImageGenerator`, part_001) -/

/-- Retry loop shared by both stages: up to `fuel` attempts, returning the
saved artifact path on the first success together with the number of attempts
made.  Every failure is caught by the stage's `catch` and retried; after the
last failure the slot is `none`. -/
def retryLoop (ok : ℕ → Bool) (saved : JStr) : ℕ → ℕ → Option JStr × ℕ
  | attempt, 0 => (none, attempt)
  | attempt, fuel + 1 =>
    if ok attempt then (some saved, attempt + 1) else retryLoop ok saved (attempt + 1) fuel

/-- Fixed per-item retry budget (`maxRetries = 3` in both stages). -/
def maxRetries : ℕ := 3

/-- Models `ImageGenerator.generateImageWithRunway`: up to `maxRetries` attempts
(both the distinguished `TaskFailedError` and any other thrown error are
caught and retried identically); the result is the saved path or `null`,
returned together with the number of attempts made. -/
def generateImageWithRunway (ok : ℕ → Bool) (saved : JStr) : Option JStr × ℕ :=
  retryLoop ok saved 0 maxRetries

/-- Request issued to the image provider: prompt plus optional reference. -/
structure ImgRequest where
  promptText : JStr
  refImage : Option JStr
deriving DecidableEq, Repr

/-- Reference test of `generateImageWithRunway`:
`refImage === "None" || !refImage` selects the no-reference branch. -/
def refIsNone (r : JStr) : Bool := r == js "None" || r.isEmpty

/-- Request constructed by `generateImageWithRunway` from a prompt and the
current reference value. -/
def mkImgRequest (prompt r : JStr) : ImgRequest :=
  if refIsNone r then { promptText := prompt, refImage := none }
  else
    { promptText := prompt ++
        js "Draw different from the reference image or Draw similar to the reference image",
      refImage := some r }

/-- Content type chosen by `getImageAsDataUri` from the file extension. -/
def extContentType (p : JStr) : JStr :=
  if startsWithJ p.reverse (js ".png").reverse then js "image/png"
  else if startsWithJ p.reverse (js ".jpg").reverse
      || startsWithJ p.reverse (js ".jpeg").reverse then js "image/jpeg"
  else if startsWithJ p.reverse (js ".gif").reverse then js "image/gif"
  else if startsWithJ p.reverse (js ".webp").reverse then js "image/webp"
  else js "image/png"

/-- Models `ImageGenerator.getImageAsDataUri`: data URI of the file contents, or the
string `"None"` when reading fails (errors are caught). -/
def getImageAsDataUri (P : Providers) (p : JStr) : JStr :=
  match P.readFile p with
  | some content => js "data:" ++ extContentType p ++ js ";base64," ++ P.base64 content
  | none => js "None"

/-- Log entry for one scene of the Visual Stage. -/
structure SceneCall where
  idx : ℕ
  rawRef : JStr
  request : ImgRequest
  attempts : ℕ
deriving DecidableEq, Repr

/-- Loop body of `generateVisualsForScenes`: sequential generation threading
the reference value, which is reassigned only after a successful scene. -/
def visualsGo (P : Providers) : ℕ → JStr → List Scene → List (Option JStr) × List SceneCall
  | _, _, [] => ([], [])
  | i, refImage, scene :: rest =>
    let saved := pathJoin P.outputDir (imageFilename i)
    let r := generateImageWithRunway (P.imageAttempt i) saved
    let call : SceneCall :=
      { idx := i, rawRef := refImage, request := mkImgRequest scene.text refImage,
        attempts := r.2 }
    let newRef := if jsTruthyS r.1 then getImageAsDataUri P (r.1.getD []) else refImage
    let next := visualsGo P (i + 1) newRef rest
    (r.1 :: next.1, call :: next.2)

/-- Models `ImageGenerator.generateVisualsForScenes`. -/
def generateVisualsForScenes (P : Providers) (scenes : List Scene) :
    List (Option JStr) × List SceneCall :=
  visualsGo P 0 (js "None") scenes

/-! ## Clip Stage (`VideoGenerator.generateVideoWithRunway`) -/

/-- Log entry for one scene of the Clip Stage. -/
structure ClipCall where
  idx : ℕ
  attempts : ℕ
deriving DecidableEq, Repr

/-- Does attempt `a` for scene `i` of the Clip Stage succeed?  The attempt
first reads the scene's image (`fs.readFileSync` throws on a `null` or
unreadable path, which the retry `catch` absorbs), then calls the video
provider and downloads the result. -/
def clipAttempt (P : Providers) (imagePaths : List (Option JStr)) (i a : ℕ) : Bool :=
  match (imagePaths.get? i).getD none with
  | some p => (P.readFile p).isSome && P.videoAttempt i a
  | none => false

/-- Loop body of `generateVideoWithRunway`: per-scene retry, pushing `null`
for a scene that exhausts its attempts. -/
def clipsGo (P : Providers) (imagePaths : List (Option JStr)) :
    ℕ → List JStr → List (Option JStr) × List ClipCall
  | _, [] => ([], [])
  | i, _ :: rest =>
    let saved := pathJoin P.outputDir (videoFilename i)
    let r := retryLoop (clipAttempt P imagePaths i) saved 0 maxRetries
    -- the single-scene retry `while` of `generateVideoWithRunway`
    let next := clipsGo P imagePaths (i + 1) rest
    (r.1 :: next.1, { idx := i, attempts := r.2 } :: next.2)

/-- Body of `VideoGenerator.generateVideoWithRunway`. -/
def generateVideoWithRunwayBody (P : Providers) (videoScripts : List JStr)
    (imagePaths : List (Option JStr)) : List (Option JStr) × List ClipCall :=
  clipsGo P imagePaths 0 videoScripts

/-- Models `VideoGenerator.generateVideoWithRunway` with its outer `try`/`catch`: the
per-scene loop catches every per-item error, so the stage always returns its
slot list and never rethrows. -/
def generateVideoWithRunway (P : Providers) (videoScripts : List JStr)
    (imagePaths : List (Option JStr)) : Except String (List (Option JStr) × List ClipCall) :=
  Except.ok (generateVideoWithRunwayBody P videoScripts imagePaths)

/-! ## Assembly Stage (`VideoGenerator.concatenateVideos`) -/

/-- Transient manifest filename. -/
def filelistName : JStr := js "filelist.txt"

/-- Timestamped combined-output filename. -/
def combinedFilename (ts : JStr) : JStr := js "combined_video_" ++ ts ++ js ".mp4"

/-- Filter of `concatenateVideos`: keep truthy paths that exist on disk. -/
def validClipPaths (P : Providers) (videoPaths : List (Option JStr)) : List JStr :=
  videoPaths.filterMap fun vp =>
    match vp with
    | some p => if !p.isEmpty && P.pathExists p then some p else none
    | none => none

/-- Manifest entry for one clip: an absolute path is used as is, a relative
path is resolved from `videoPath.split('\\')[1]` — when that index is
`undefined`, `path.resolve` throws a `TypeError` (`none`). -/
def resolveEntry (P : Providers) (p : JStr) : Option JStr :=
  if P.isAbsolutePath p then some p
  else (jsAt (splitCh '\\' p) 1).map (P.resolvePath P.outputDir)

/-- Ordered resolved clip paths listed in the manifest built by
`createFFmpegConcatenationCommand` (one `file` line each; the textual
formatting of the list is not modelled). -/
def manifestEntries (P : Providers) (valid : List JStr) : Option (List JStr) :=
  valid.mapM (resolveEntry P)

/-- Observable outcome of the Assembly Stage. -/
structure ConcatResult where
  result : Option JStr
  validPaths : List JStr
  manifest : Option (List JStr)
deriving DecidableEq, Repr

/-- Models `VideoGenerator.concatenateVideos`: filter the clip list, build the FFmpeg
invocation (single-clip direct copy, or manifest plus concat demuxer), run it,
then remove the manifest.  Every error inside — including a failing manifest
removal after a successful FFmpeg run — is caught by the function's own
`catch`, which returns `null`. -/
def concatenateVideos (P : Providers) (videoPaths : List (Option JStr)) : ConcatResult :=
  if videoPaths.isEmpty then { result := none, validPaths := [], manifest := none }
  else
    let valid := validClipPaths P videoPaths
    if valid.isEmpty then { result := none, validPaths := valid, manifest := none }
    else
      let outputPath := pathJoin P.outputDir (combinedFilename P.timestamp)
      let fileListPath := pathJoin P.outputDir filelistName
      if valid.length == 1 then
        if P.execOk then
          if P.pathExists fileListPath then
            if P.removeOk then { result := some outputPath, validPaths := valid, manifest := none }
            else { result := none, validPaths := valid, manifest := none }
          else { result := some outputPath, validPaths := valid, manifest := none }
        else { result := none, validPaths := valid, manifest := none }
      else
        match manifestEntries P valid with
        | none => { result := none, validPaths := valid, manifest := none }
        | some entries =>
          if P.writeOk then
            if P.execOk then
              if P.removeOk then
                { result := some outputPath, validPaths := valid, manifest := some entries }
              else { result := none, validPaths := valid, manifest := some entries }
            else { result := none, validPaths := valid, manifest := some entries }
          else { result := none, validPaths := valid, manifest := none }

/-! ## Pipeline Orchestrator (`VideoGenerator.generateVideo` / `generate`) -/

/-- Motion-prompt prelude prepended to every clip script in `generate`. -/
def videoPromptPrelude : JStr :=
  js "This is a high-quality cinematic scene captured by a professional camera, not a photo, not a cartoon. The motion is continuous and natural — no sudden appearances or disappearances of people or objects, no surreal effects. "

/-- Message of the rethrown `generateScript` failure. -/
def scriptFailMsg : String := "Failed to generate video script"

/-- Message thrown when decomposition yields no scenes. -/
def parseFailMsg : String := "Failed to parse scenes from script"

/-- Message rethrown by `generate`'s own `catch`. -/
def runwayFailMsg : String := "Failed to generate video with RunwayML"

/-- Message thrown when `generate` returned a falsy final path. -/
def genFailMsg : String := "Video generation failed"

/-- Task update at the start of `generateVideo`. -/
def updRunning10 : TaskUpdates :=
  { status := some "running", progress := some 10, message := some "Generating video script..." }

/-- Task update after scene parsing succeeds. -/
def upd30 : TaskUpdates :=
  { progress := some 30, message := some "Script generated, creating video..." }

/-- Task update at the start of the Visual Stage. -/
def upd40 : TaskUpdates :=
  { progress := some 40, message := some "Generating images for scenes..." }

/-- Task update at the start of the Clip Stage. -/
def upd60 : TaskUpdates :=
  { progress := some 60, message := some "Generating videos from images..." }

/-- Task update at the start of the Assembly Stage. -/
def upd80 : TaskUpdates :=
  { progress := some 80, message := some "Concatenating videos with transitions..." }

/-- Terminal update of a successful run. -/
def updCompleted (p : JStr) : TaskUpdates :=
  { status := some "completed", progress := some 100,
    message := some "Video generation completed successfully!", data := some (some p) }

/-- Terminal update written by `generateVideo`'s `catch`. -/
def updFailed (e : String) : TaskUpdates := { status := some "failed", error := some e }

/-- Per-scene motion prompts built in `generate` via the OpenAI chat call;
a failing call throws out to `generate`'s `catch`. -/
def buildVideoScripts (P : Providers) : ℕ → List Scene → Except String (List JStr)
  | _, [] => Except.ok []
  | i, _ :: rest =>
    match P.motionPrompt i with
    | Except.error e => Except.error e
    | Except.ok content =>
      match buildVideoScripts P (i + 1) rest with
      | Except.error e => Except.error e
      | Except.ok tail => Except.ok ((videoPromptPrelude ++ content) :: tail)

deriving instance DecidableEq for Except

/-- Observable outcome of `VideoGenerator.generate` for one task. -/
structure StageRun where
  trace : List TaskUpdates
  result : Except String (Option JStr)
  visCalls : List SceneCall
  clipCalls : List ClipCall
  assembled : List JStr
deriving DecidableEq, Repr

/-- Models `VideoGenerator.generate`: Visual Stage, motion prompts, Clip Stage, then
Assembly; any error escaping a step is caught by `generate`'s `catch` and
rethrown as the fixed RunwayML failure message. -/
def generateStage (P : Providers) (scenes : List Scene) : StageRun :=
  let vis := generateVisualsForScenes P scenes
  if vis.1.isEmpty then
    { trace := [upd40], result := Except.error runwayFailMsg,
      visCalls := vis.2, clipCalls := [], assembled := [] }
  else
    match buildVideoScripts P 0 scenes with
    | Except.error _ =>
      { trace := [upd40], result := Except.error runwayFailMsg,
        visCalls := vis.2, clipCalls := [], assembled := [] }
    | Except.ok videoScripts =>
      let clips := generateVideoWithRunwayBody P videoScripts vis.1
      if clips.1.isEmpty then
        { trace := [upd40, upd60], result := Except.error runwayFailMsg,
          visCalls := vis.2, clipCalls := clips.2, assembled := [] }
      else
        let c := concatenateVideos P clips.1
        { trace := [upd40, upd60, upd80], result := Except.ok c.result,
          visCalls := vis.2, clipCalls := clips.2, assembled := c.validPaths }

/-- Observable outcome of `VideoGenerator.generateVideo` for one task. -/
structure RunOutcome where
  trace : List TaskUpdates
  result : Except String JStr
  visCalls : List SceneCall
  clipCalls : List ClipCall
  assembled : List JStr
deriving DecidableEq, Repr

/-- Models `VideoGenerator.generateVideo`: set the task running, generate and parse
the script, drive `generate` over `scenes.slice(0, 1)` — only the first
scene — then record `completed` or, from the `catch`, `failed`. -/
def generateVideoModel (P : Providers) : RunOutcome :=
  match P.script with
  | Except.error _ =>
    { trace := [updRunning10, updFailed scriptFailMsg], result := Except.error scriptFailMsg,
      visCalls := [], clipCalls := [], assembled := [] }
  | Except.ok resp =>
    let scenes := parseScene resp
    if scenes.isEmpty then
      { trace := [updRunning10, updFailed parseFailMsg], result := Except.error parseFailMsg,
        visCalls := [], clipCalls := [], assembled := [] }
    else
      let g := generateStage P (scenes.take 1)
      match g.result with
      | Except.error e =>
        { trace := updRunning10 :: upd30 :: g.trace ++ [updFailed e],
          result := Except.error e,
          visCalls := g.visCalls, clipCalls := g.clipCalls, assembled := g.assembled }
      | Except.ok none =>
        { trace := updRunning10 :: upd30 :: g.trace ++ [updFailed genFailMsg],
          result := Except.error genFailMsg,
          visCalls := g.visCalls, clipCalls := g.clipCalls, assembled := g.assembled }
      | Except.ok (some p) =>
        if p.isEmpty then
          { trace := updRunning10 :: upd30 :: g.trace ++ [updFailed genFailMsg],
            result := Except.error genFailMsg,
            visCalls := g.visCalls, clipCalls := g.clipCalls, assembled := g.assembled }
        else
          { trace := updRunning10 :: upd30 :: g.trace ++ [updCompleted p],
            result := Except.ok p,
            visCalls := g.visCalls, clipCalls := g.clipCalls, assembled := g.assembled }

/-- Registry states over time produced by a list of updates applied to a
freshly created task. -/
def statesOf (tr : List TaskUpdates) : List Task :=
  List.scanl (fun t u => applyUpdates t u 0) (createTask "task" "video" none 0) tr

/-- Successive registry states of one orchestrated task: the created task
followed by the result of every update `generateVideo` writes. -/
def videoTaskStates (P : Providers) : List Task :=
  statesOf (generateVideoModel P).trace

/-- Collapse adjacent repeats (the recorded state sequence of a task). -/
def dedupAdj : List String → List String
  | [] => []
  | [a] => [a]
  | a :: b :: r => if a == b then dedupAdj (b :: r) else a :: dedupAdj (b :: r)

/-- All-success provider valuation used by concrete runs. -/
def okProviders (resp : JStr) : Providers :=
  { script := Except.ok resp
    imageAttempt := fun _ _ => true
    readFile := fun _ => some (js "IMGDATA")
    base64 := fun d => d
    motionPrompt := fun _ => Except.ok (js "motion")
    videoAttempt := fun _ _ => true
    outputDir := js "./output"
    pathExists := fun _ => true
    isAbsolutePath := fun _ => false
    resolvePath := fun dir file => js "C:" ++ pathJoin dir file
    writeOk := true
    execOk := true
    removeOk := true
    timestamp := js "2025-01-01T00-00-00" }

/-! ## Scene-sequence invariant checkers -/

/-- Numeric (non-`NaN`) scene number and duration. -/
def goodNums (s : Scene) : Bool := s.scene_number.isSome && s.duration.isSome

/-- Ascending (non-strict) adjacent ordering by scene number. -/
def sortedOk : List Scene → Bool
  | a :: b :: r => jsLeNum a.scene_number b.scene_number && sortedOk (b :: r)
  | _ => true

/-- Adjacent contiguity: each scene starts where the previous one ends. -/
def adjacentOk : List Scene → Bool
  | a :: b :: r => jsEqNum b.start_time a.end_time && adjacentOk (b :: r)
  | _ => true

/-- Every scene's end time equals its start time plus its duration. -/
def endTimesOk (l : List Scene) : Bool :=
  l.all fun s => jsEqNum s.end_time (jsAdd s.start_time s.duration)

/-- The first scene starts at time zero. -/
def headStartOk : List Scene → Bool
  | [] => true
  | s :: _ => jsEqNum s.start_time (some 0)

/-- Conjunction of the decomposition invariants claimed for `parseScene`. -/
def sceneInvariantsOk (l : List Scene) : Bool :=
  sortedOk l && headStartOk l && endTimesOk l && adjacentOk l

/-! ## Malformed-input example scripts -/

/-- Script whose first line has an unparseable scene number. -/
def malformedNumberScript : JStr :=
  js "SCENE ONE: a sunrise | Duration: 10 seconds\nSCENE 2: a sunset | Duration: 10 seconds"

/-- Script whose only line has an unparseable duration. -/
def malformedDurationScript : JStr := js "SCENE 1: a sunrise | Duration: ten seconds"

/-! ## Demonstration registry -/

/-- Demonstration registry with one task. -/
def demoTask : Task := createTask "a" "video" none 0

/-- Demonstration registry. -/
def demoReg : Registry := [("a", demoTask)]

/-- Demonstration update. -/
def demoUpd : TaskUpdates := { progress := some 50, message := some "halfway" }

/-! ## Assembly demonstration inputs -/

/-- Providers that differ from the all-success valuation only in that the
manifest `fs.remove` fails. -/
def cleanupFailProviders : Providers := { okProviders (js "") with removeOk := false }

/-- Two valid clips, so that assembly takes the manifest branch. -/
def twoClips : List (Option JStr) :=
  [some (js "output\\video_01.mp4"), some (js "output\\video_02.mp4")]

/-! ## Reference-chain fold and stage demonstration inputs -/

/-- Reference value obtained by folding the stage results so far over an
initial reference: the data URI of the most recent successful artifact, or the
initial value when no scene has succeeded yet. -/
def refFold (P : Providers) (r : JStr) (prior : List (Option JStr)) : JStr :=
  match prior.reduceOption.getLast? with
  | some p => getImageAsDataUri P p
  | none => r

/-- Providers in which only the second scene's image generation fails. -/
def staleRefProviders : Providers :=
  { okProviders (js "") with imageAttempt := fun i _ => !(i == 1) }

/-- Minimal scene record used for stage-level runs. -/
def dummyScene (txt : String) : Scene :=
  { text := js txt, duration := some 10, scene_number := some 1,
    start_time := some 0, end_time := some 10 }

/-- Three scenes for the stale-reference run. -/
def threeScenes : List Scene := [dummyScene "a", dummyScene "b", dummyScene "c"]

/-! ## Numeric-scene predicate and ordering example scripts -/

/-- Numeric scene number. -/
def numOk (s : Scene) : Bool := s.scene_number.isSome

/-- Script whose first qualifying line has an unparseable duration. -/
def nanDurationScript : JStr :=
  js "SCENE 1: a | Duration: ten seconds\nSCENE 2: b | Duration: 10 seconds"

/-- Out-of-order example decomposing cleanly. -/
def outOfOrderScript : JStr :=
  js "SCENE 2: b | Duration: 10 seconds\nSCENE 1: a | Duration: 10 seconds"

/-! ## Structured scene lines -/

/-- Portion of a structured scene line before the duration delimiter:
the marker and number, a colon, main description text, a second colon, and
trailing description text. -/
def preSeg (ds d1 d2 : JStr) : JStr := (js "SCENE" ++ ds) ++ (':' :: (d1 ++ (':' :: d2)))

/-- Structured scene line whose description contains a second colon before
the duration delimiter. -/
def sceneLineOf (ds d1 d2 t : JStr) : JStr := preSeg ds d1 d2 ++ (durationDelim ++ t)

/-- Qualifying line of the C1 example script. -/
def sunriseLine : JStr := js "SCENE 1: A sunrise | Duration: 10 seconds"

/-- Modelled from the claim's wording: the line's text strictly between its
first and second `:` characters. -/
def betweenFirstTwoColons (s : JStr) : Option JStr :=
  match splitCh ':' s with
  | _ :: mid :: _ :: _ => some mid
  | _ => none

/-! ## Theorems -/

example : (parseScene exampleScript).map Scene.start_time = [some 0, some 10] := by
  with_unfolding_all decide

example : (parseScene exampleScript).map Scene.end_time = [some 10, some 20] := by
  with_unfolding_all decide

example : (parseScene (js "SCENE ONE: a sunrise | Duration: 10 seconds")).map Scene.scene_number
    = [none] := by with_unfolding_all decide

example : parseScene (js "hello") = [] := by with_unfolding_all decide

example : jsParseFloat (js " 10 ") = some 10 := by with_unfolding_all decide

example : jsParseFloat (js " ten ") = none := by with_unfolding_all decide

example : jsParseInt (js " 12abc") = some 12 := by with_unfolding_all decide

example : jsParseInt (js "ONE") = none := by with_unfolding_all decide

example : jsParseFloat (js "2.5e1 x") = some 25 := by with_unfolding_all decide

example : jsSplit2 (js "| Duration:") (js "SCENE 1: A | Duration: 10 seconds")
    = some (js "SCENE 1: A ", js " 10 seconds") := by decide

/-- Looking a key up after replacing its entry finds the replacement. -/
theorem lookupTask_setTask_self : ∀ (r : Registry) (id : String) (t t' : Task),
    lookupTask r id = some t → lookupTask (setTask r id t') id = some t'
  | [], id, t, t', h => by simp [lookupTask] at h
  | (k, a) :: rest, id, t, t', h => by
    cases hk : (k == id) with
    | true => simp [lookupTask, setTask, hk]
    | false =>
      simp only [lookupTask, setTask, hk, if_false, Bool.false_eq_true] at h ⊢
      exact lookupTask_setTask_self rest id t t' h

/-- Replacing one key's entry leaves every other key's lookup unchanged. -/
theorem lookupTask_setTask_other : ∀ (r : Registry) (id id2 : String) (t' : Task),
    id2 ≠ id → lookupTask (setTask r id t') id2 = lookupTask r id2
  | [], _, _, _, _ => rfl
  | (k, a) :: rest, id, id2, t', h => by
    cases hk : (k == id) with
    | true =>
      have hk' : k = id := by simpa using hk
      have : (k == id2) = false := by
        subst hk'
        exact beq_eq_false_iff_ne.mpr fun e => h e.symm
      simp [lookupTask, setTask, hk, this]
    | false => simp [lookupTask, setTask, hk, lookupTask_setTask_other rest id id2 t' h]

example :
    (generateVideoModel (okProviders exampleScript)).assembled
      = [pathJoin (js "./output") (videoFilename 0)] := by
  with_unfolding_all decide

example :
    (generateVideoModel (okProviders exampleScript)).result
      = Except.ok (pathJoin (js "./output") (combinedFilename (js "2025-01-01T00-00-00"))) := by
  with_unfolding_all decide

example :
    (videoTaskStates (okProviders exampleScript)).map Task.progress
      = [0, 10, 30, 40, 60, 80, 100] := by
  with_unfolding_all decide

/-- Claim C1, code evaluation at the failing input.  The decomposition half of
the claim holds: the two-scene example script parses to `startTime = [0, 10]`,
`endTime = [10, 20]`, and with every provider call succeeding the task ends
`completed` at progress 100.  But `generateVideo` hands `generate` only
`scenes.slice(0, 1)`, so the assembled artifact contains exactly one clip —
the first scene's — not both clips as the claim states. -/
theorem generateVideo_example_assembles_only_first_clip :
    (parseScene exampleScript).map Scene.start_time = [some 0, some 10] ∧
    (parseScene exampleScript).map Scene.end_time = [some 10, some 20] ∧
    (generateVideoModel (okProviders exampleScript)).result
      = Except.ok (pathJoin (js "./output") (combinedFilename (js "2025-01-01T00-00-00"))) ∧
    ((videoTaskStates (okProviders exampleScript)).map fun t => (t.status, t.progress)).getLast?
      = some ("completed", 100) ∧
    (generateVideoModel (okProviders exampleScript)).assembled
      = [pathJoin (js "./output") (videoFilename 0)] := by
  with_unfolding_all decide

/-- Claim C5, code evaluation at the failing inputs.  JavaScript `parseInt`
and `parseFloat` return `NaN` instead of throwing, so the `catch` that is
meant to skip a malformed qualifying line never fires: the line is *not*
skipped, and a scene record with a `NaN` scene number (or `NaN` duration,
which also poisons subsequent derived times) is pushed, contradicting the
claim that every output scene has well-defined numeric fields. -/
theorem parseScene_malformed_line_not_skipped :
    (parseScene malformedNumberScript).length = 2 ∧
    (parseScene malformedNumberScript).map Scene.scene_number = [none, some 2] ∧
    (parseScene malformedDurationScript).length = 1 ∧
    (parseScene malformedDurationScript).map Scene.duration = [none] := by
  with_unfolding_all decide

/-- Claim C9: `updateTask` fails with `NotFound` exactly when the id is
absent, leaving the registry unchanged in that case; for a present id it
merges exactly the supplied fields, refreshes `updatedAt`, and leaves every
other task field — and every other task — unchanged. -/
theorem updateTask_notFound_iff_and_merges_exactly (r : Registry) (id : String)
    (u : TaskUpdates) (now : ℕ) :
    ((updateTask r id u now).2 = Except.error (notFoundMsg id) ↔ lookupTask r id = none) ∧
    (lookupTask r id = none → (updateTask r id u now).1 = r) ∧
    (∀ t, lookupTask r id = some t →
      (updateTask r id u now).2 = Except.ok (applyUpdates t u now) ∧
      lookupTask (updateTask r id u now).1 id = some (applyUpdates t u now) ∧
      (∀ v, u.status = some v → (applyUpdates t u now).status = v) ∧
      (u.status = none → (applyUpdates t u now).status = t.status) ∧
      (∀ v, u.progress = some v → (applyUpdates t u now).progress = v) ∧
      (u.progress = none → (applyUpdates t u now).progress = t.progress) ∧
      (∀ v, u.message = some v → (applyUpdates t u now).message = v) ∧
      (u.message = none → (applyUpdates t u now).message = t.message) ∧
      (∀ v, u.data = some v → (applyUpdates t u now).data = v) ∧
      (u.data = none → (applyUpdates t u now).data = t.data) ∧
      (∀ v, u.error = some v → (applyUpdates t u now).error = some v) ∧
      (u.error = none → (applyUpdates t u now).error = t.error) ∧
      (applyUpdates t u now).updatedAt = now ∧
      (applyUpdates t u now).id = t.id ∧
      (applyUpdates t u now).type = t.type ∧
      (applyUpdates t u now).createdAt = t.createdAt ∧
      (∀ id2, id2 ≠ id → lookupTask (updateTask r id u now).1 id2 = lookupTask r id2)) := by
  refine ⟨?_, ?_, ?_⟩
  · constructor
    · intro h
      cases hl : lookupTask r id with
      | none => rfl
      | some t => simp [updateTask, hl] at h
    · intro hl
      simp [updateTask, hl]
  · intro hl
    simp [updateTask, hl]
  · intro t hl
    refine ⟨by simp [updateTask, hl], ?_, ?_, ?_, ?_, ?_, ?_, ?_, ?_, ?_, ?_, ?_, ?_, ?_, ?_,
      ?_, ?_⟩
    · simp only [updateTask, hl]
      exact lookupTask_setTask_self r id t _ hl
    · intro v hv
      simp [applyUpdates, hv]
    · intro hv
      simp [applyUpdates, hv]
    · intro v hv
      simp [applyUpdates, hv]
    · intro hv
      simp [applyUpdates, hv]
    · intro v hv
      simp [applyUpdates, hv]
    · intro hv
      simp [applyUpdates, hv]
    · intro v hv
      simp [applyUpdates, hv]
    · intro hv
      simp [applyUpdates, hv]
    · intro v hv
      simp [applyUpdates, hv]
    · intro hv
      simp [applyUpdates, hv]
    · simp [applyUpdates]
    · simp [applyUpdates]
    · simp [applyUpdates]
    · simp [applyUpdates]
    · intro id2 h2
      simp only [updateTask, hl]
      exact lookupTask_setTask_other r id id2 _ h2

/-- Witness for claim C9 at a concrete registry: the absent id `"b"` fails
with `NotFound` and leaves the registry unchanged; the present id `"a"` gets
exactly the supplied fields merged and `updatedAt` refreshed. -/
theorem updateTask_notFound_iff_and_merges_exactly_witness :
    (updateTask demoReg "b" demoUpd 5).2 = Except.error (notFoundMsg "b") ∧
    (updateTask demoReg "b" demoUpd 5).1 = demoReg ∧
    (updateTask demoReg "a" demoUpd 5).2 = Except.ok (applyUpdates demoTask demoUpd 5) ∧
    (applyUpdates demoTask demoUpd 5).progress = 50 ∧
    (applyUpdates demoTask demoUpd 5).status = demoTask.status ∧
    (applyUpdates demoTask demoUpd 5).updatedAt = 5 := by
  have habs := updateTask_notFound_iff_and_merges_exactly demoReg "b" demoUpd 5
  have hpres := updateTask_notFound_iff_and_merges_exactly demoReg "a" demoUpd 5
  have hl : lookupTask demoReg "b" = none := by decide
  have hl2 : lookupTask demoReg "a" = some demoTask := by decide
  obtain ⟨h1, h2, -⟩ := habs
  obtain ⟨-, -, h3⟩ := hpres
  obtain ⟨hok, -, -, -, hprog, -, -, -, -, -, -, -, hupd, -, -, -, -⟩ := h3 demoTask hl2
  exact ⟨h1.mpr hl, h2 hl, hok, hprog 50 rfl, by simp [applyUpdates, demoUpd], hupd⟩

/-- Claim C6: when scene decomposition of the generated script yields an empty
sequence, the Orchestrator writes `failed` with the triggering error's message
as the very next registry update, drives no generation stage (no visual
requests, no clip attempts, no assembly input), and does not retry. -/
theorem generateVideo_empty_scenes_fails_immediately (P : Providers) (resp : JStr)
    (hs : P.script = Except.ok resp) (hp : parseScene resp = []) :
    generateVideoModel P =
      { trace := [updRunning10, updFailed parseFailMsg], result := Except.error parseFailMsg,
        visCalls := [], clipCalls := [], assembled := [] } := by
  unfold generateVideoModel
  rw [hs]
  simp [hp]

/-- Witness for claim C6: a script with no qualifying line parses to no
scenes, and the run records exactly the running and failed updates. -/
theorem generateVideo_empty_scenes_fails_immediately_witness :
    generateVideoModel (okProviders (js "hello")) =
      { trace := [updRunning10, updFailed parseFailMsg], result := Except.error parseFailMsg,
        visCalls := [], clipCalls := [], assembled := [] } :=
  generateVideo_empty_scenes_fails_immediately (okProviders (js "hello")) (js "hello") rfl
    (by with_unfolding_all decide)

/-- Claim C8 counterexample: with a successful FFmpeg invocation but a failing
manifest removal, `concatenateVideos` returns `null` instead of the final
artifact path — the cleanup error is caught only by the assembly-wide `catch`,
which discards the result. -/
theorem concatenateVideos_cleanup_failure_nulls_result :
    cleanupFailProviders.execOk = true ∧
    (concatenateVideos cleanupFailProviders twoClips).manifest.isSome = true ∧
    (concatenateVideos cleanupFailProviders twoClips).result = none := by
  with_unfolding_all decide

/-- Claim C8 as amended: when at least two valid clips reach assembly, the
manifest write and the FFmpeg invocation succeed, the assembly result is the
final artifact path exactly when the manifest removal also succeeds; a failing
removal changes the result to `null`. -/
theorem concatenateVideos_result_depends_on_cleanup (P : Providers)
    (videoPaths : List (Option JStr)) (entries : List JStr)
    (h2 : 2 ≤ (validClipPaths P videoPaths).length)
    (hm : manifestEntries P (validClipPaths P videoPaths) = some entries)
    (hw : P.writeOk = true) (he : P.execOk = true) :
    (concatenateVideos P videoPaths).result =
      if P.removeOk then some (pathJoin P.outputDir (combinedFilename P.timestamp))
      else none := by
  have hvne : videoPaths.isEmpty = false := by
    cases hv : videoPaths.isEmpty with
    | false => rfl
    | true =>
      rw [List.isEmpty_iff] at hv
      rw [hv] at h2
      simp [validClipPaths] at h2
  have hvalidne : (validClipPaths P videoPaths).isEmpty = false := by
    cases hv : (validClipPaths P videoPaths).isEmpty with
    | false => rfl
    | true =>
      rw [List.isEmpty_iff] at hv
      rw [hv] at h2
      simp at h2
  have hnot1 : ((validClipPaths P videoPaths).length == 1) = false := by
    refine beq_eq_false_iff_ne.mpr fun e => ?_
    omega
  unfold concatenateVideos
  simp only [hvne, hvalidne, hnot1, hm, hw, he, Bool.false_eq_true, if_false, if_true]
  cases hr : P.removeOk <;> simp

/-- Witness for claim C8 at a concrete input: with every file-system call
succeeding, a two-clip assembly returns the combined artifact path. -/
theorem concatenateVideos_result_depends_on_cleanup_witness :
    (concatenateVideos (okProviders (js "x")) twoClips).result
      = some (pathJoin (js "./output") (combinedFilename (js "2025-01-01T00-00-00"))) := by
  have h := concatenateVideos_result_depends_on_cleanup (okProviders (js "x")) twoClips
    [js "C:./output\\video_01.mp4", js "C:./output\\video_02.mp4"]
    (by with_unfolding_all decide) (by with_unfolding_all decide) rfl rfl
  simpa using h

/-- Joining paths never yields the empty string. -/
theorem pathJoin_ne_nil (d f : JStr) : pathJoin d f ≠ [] := by
  intro h
  have h2 := congrArg List.length h
  have h3 : (js "\\").length = 1 := rfl
  simp only [pathJoin, List.length_append, h3, List.length_nil] at h2
  omega

/-- Emptiness test of a nonempty list. -/
theorem isEmpty_false_of_ne_nil {l : JStr} (h : l ≠ []) : l.isEmpty = false := by
  cases l with
  | nil => exact absurd rfl h
  | cons a as => rfl

/-- Every retry-loop result is `null` or the saved path. -/
theorem retryLoop_result (ok : ℕ → Bool) (saved : JStr) :
    ∀ (f a : ℕ), (retryLoop ok saved a f).1 = none ∨ (retryLoop ok saved a f).1 = some saved
  | 0, _ => Or.inl rfl
  | f + 1, a => by
    unfold retryLoop
    cases h : ok a with
    | true => simp
    | false =>
      simp only [Bool.false_eq_true, if_false]
      exact retryLoop_result ok saved f (a + 1)

/-- Folding a successful result rebases the reference on its data URI. -/
theorem refFold_cons_some (P : Providers) (p : JStr) (r : JStr) (l : List (Option JStr)) :
    refFold P r (some p :: l) = refFold P (getImageAsDataUri P p) l := by
  unfold refFold
  rw [List.reduceOption_cons_of_some]
  cases h : l.reduceOption with
  | nil => simp
  | cons q qs =>
    cases hg : (q :: qs).getLast? with
    | none => simp at hg
    | some x => simp [List.getLast?_cons_cons, hg]

/-- Folding a failed result leaves the reference unchanged. -/
theorem refFold_cons_none (P : Providers) (r : JStr) (l : List (Option JStr)) :
    refFold P r (none :: l) = refFold P r l := by
  unfold refFold
  rw [List.reduceOption_cons_of_none]

/-- Reference value observed by scene `j` of the Visual-Stage loop, for any
starting index and starting reference. -/
theorem visualsGo_rawRef (P : Providers) :
    ∀ (scenes : List Scene) (i : ℕ) (r : JStr) (j : ℕ), j < scenes.length →
      ((visualsGo P i r scenes).2.get? j).map SceneCall.rawRef =
          some (refFold P r ((visualsGo P i r scenes).1.take j)) ∧
        ∀ s, scenes.get? j = some s →
          ((visualsGo P i r scenes).2.get? j).map SceneCall.request =
            some (mkImgRequest s.text (refFold P r ((visualsGo P i r scenes).1.take j)))
  | [], _, _, j, hj => absurd hj (by simp)
  | scene :: rest, i, r, 0, hj => by
    constructor
    · simp [visualsGo, refFold]
    · intro s hs
      simp only [List.get?] at hs
      cases hs
      simp [visualsGo, refFold]
  | scene :: rest, i, r, j + 1, hj => by
    have hj' : j < rest.length := by simpa using hj
    rcases retryLoop_result (P.imageAttempt i) (pathJoin P.outputDir (imageFilename i)) maxRetries 0
      with hres | hres
    · have ih := visualsGo_rawRef P rest (i + 1) r j hj'
      constructor
      · simpa [visualsGo, generateImageWithRunway, hres, jsTruthyS, refFold_cons_none]
          using ih.1
      · intro s hs
        simpa [visualsGo, generateImageWithRunway, hres, jsTruthyS, refFold_cons_none]
          using ih.2 s (by simpa using hs)
    · have hne : ((pathJoin P.outputDir (imageFilename i)).isEmpty) = false :=
        isEmpty_false_of_ne_nil (pathJoin_ne_nil _ _)
      have ih := visualsGo_rawRef P rest (i + 1)
        (getImageAsDataUri P (pathJoin P.outputDir (imageFilename i))) j hj'
      constructor
      · simpa [visualsGo, generateImageWithRunway, hres, jsTruthyS, hne, refFold_cons_some]
          using ih.1
      · intro s hs
        simpa [visualsGo, generateImageWithRunway, hres, jsTruthyS, hne, refFold_cons_some]
          using ih.2 s (by simpa using hs)

/-- Claim C2 as amended: the reference carried by the generation request for
scene `j` is the fold of all earlier results — the data URI of the *most
recent successful* scene's artifact, even across intervening failed scenes
(whose `null` results leave the reference untouched) — and only when no
earlier scene succeeded is it the no-reference value `"None"`. -/
theorem generateVisuals_reference_is_last_successful (P : Providers) (scenes : List Scene)
    (j : ℕ) (hj : j < scenes.length) :
    ((generateVisualsForScenes P scenes).2.get? j).map SceneCall.rawRef =
        some (refFold P (js "None") ((generateVisualsForScenes P scenes).1.take j)) ∧
      ∀ s, scenes.get? j = some s →
        ((generateVisualsForScenes P scenes).2.get? j).map SceneCall.request =
          some (mkImgRequest s.text (refFold P (js "None")
            ((generateVisualsForScenes P scenes).1.take j))) :=
  visualsGo_rawRef P scenes 0 (js "None") j hj

/-- Claim C2 counterexample: scene 1 exhausts all retries (its slot is
`null`), yet the request for scene 2 is *not* issued through the no-reference
branch — it carries the data URI of scene 0's artifact, because the loop
reassigns the reference only after a success and a failure leaves the earlier
reference in place. -/
theorem generateVisuals_stale_reference_after_failure :
    ((generateVisualsForScenes staleRefProviders threeScenes).1.get? 1) = some none ∧
    (((generateVisualsForScenes staleRefProviders threeScenes).2.get? 2).map
        (fun c => c.request.refImage)) =
      some (some (getImageAsDataUri staleRefProviders
        (pathJoin (js "./output") (imageFilename 0)))) := by
  with_unfolding_all decide

/-- Witness for claim C2 at a concrete input: the theorem applied to the
stale-reference run at scene 2, whose hypothesis is discharged by
computation. -/
theorem generateVisuals_reference_is_last_successful_witness :
    ((generateVisualsForScenes staleRefProviders threeScenes).2.get? 2).map SceneCall.rawRef =
        some (refFold staleRefProviders (js "None")
          ((generateVisualsForScenes staleRefProviders threeScenes).1.take 2)) ∧
      ∀ s, threeScenes.get? 2 = some s →
        ((generateVisualsForScenes staleRefProviders threeScenes).2.get? 2).map
            SceneCall.request =
          some (mkImgRequest s.text (refFold staleRefProviders (js "None")
            ((generateVisualsForScenes staleRefProviders threeScenes).1.take 2))) :=
  generateVisuals_reference_is_last_successful staleRefProviders threeScenes 2 (by decide)

/-- Retry loop evaluated under an always-failing oracle. -/
theorem retryLoop_all_fail (ok : ℕ → Bool) (saved : JStr)
    (h : ∀ a, a < 3 → ok a = false) : retryLoop ok saved 0 maxRetries = (none, 3) := by
  simp [retryLoop, maxRetries, h 0 (by omega), h 1 (by omega), h 2 (by omega)]

/-- Positional failed-slot lemma for the Clip-Stage loop. -/
theorem clipsGo_failed_slot (P : Providers) (imagePaths : List (Option JStr)) :
    ∀ (scripts : List JStr) (k i : ℕ), i < scripts.length →
      (∀ a, a < 3 → clipAttempt P imagePaths (k + i) a = false) →
      (clipsGo P imagePaths k scripts).1.get? i = some none ∧
      (clipsGo P imagePaths k scripts).2.get? i = some { idx := k + i, attempts := 3 }
  | [], _, i, hi, _ => absurd hi (by simp)
  | _ :: rest, k, 0, hi, hfail => by
    have h := retryLoop_all_fail (clipAttempt P imagePaths k) (pathJoin P.outputDir
      (videoFilename k)) (by simpa using hfail)
    simp [clipsGo, h]
  | _ :: rest, k, i + 1, hi, hfail => by
    have hi' : i < rest.length := by simpa using hi
    have hfail' : ∀ a, a < 3 → clipAttempt P imagePaths ((k + 1) + i) a = false := by
      intro a ha
      have := hfail a ha
      have harith : k + (i + 1) = (k + 1) + i := by omega
      rwa [harith] at this
    have ih := clipsGo_failed_slot P imagePaths rest (k + 1) i hi' hfail'
    have harith : (k + 1) + i = k + (i + 1) := by omega
    rw [harith] at ih
    simpa [clipsGo] using ih

/-- Claim C4: in each stage, a per-scene item that fails on every attempt is
attempted exactly `maxRetries = 3` times and its output slot is `null`; no
exception escapes the stage — `generateImageWithRunway` returns its pair, and
`generateVideoWithRunway` returns `Except.ok` of the slot list. -/
theorem stage_item_retry_bound :
    (∀ (ok : ℕ → Bool) (saved : JStr), (∀ a, a < 3 → ok a = false) →
      generateImageWithRunway ok saved = (none, 3)) ∧
    (∀ (P : Providers) (videoScripts : List JStr) (imagePaths : List (Option JStr)) (i : ℕ),
      i < videoScripts.length →
      (∀ a, a < 3 → clipAttempt P imagePaths i a = false) →
      generateVideoWithRunway P videoScripts imagePaths =
          Except.ok (generateVideoWithRunwayBody P videoScripts imagePaths) ∧
        (generateVideoWithRunwayBody P videoScripts imagePaths).1.get? i = some none ∧
        (generateVideoWithRunwayBody P videoScripts imagePaths).2.get? i =
          some { idx := i, attempts := 3 }) := by
  constructor
  · intro ok saved h
    exact retryLoop_all_fail ok saved h
  · intro P videoScripts imagePaths i hi hfail
    have h := clipsGo_failed_slot P imagePaths videoScripts 0 i hi (by simpa using hfail)
    simp only [Nat.zero_add] at h
    exact ⟨rfl, h.1, h.2⟩

/-- Witness for claim C4: an always-failing image item and a clip item whose
image slot is `null` (so that every attempt throws) are both attempted three
times and produce `null` slots. -/
theorem stage_item_retry_bound_witness :
    generateImageWithRunway (fun _ => false) (js "p") = (none, 3) ∧
    (generateVideoWithRunwayBody (okProviders (js "")) [js "s"] [none]).1.get? 0 = some none ∧
    (generateVideoWithRunwayBody (okProviders (js "")) [js "s"] [none]).2.get? 0 =
      some { idx := 0, attempts := 3 } := by
  refine ⟨stage_item_retry_bound.1 (fun _ => false) (js "p") (fun a _ => rfl), ?_, ?_⟩
  · exact (stage_item_retry_bound.2 (okProviders (js "")) [js "s"] [none] 0 (by decide)
      (fun a _ => rfl)).2.1
  · exact (stage_item_retry_bound.2 (okProviders (js "")) [js "s"] [none] 0 (by decide)
      (fun a _ => rfl)).2.2

/-- Recomputing times changes neither scene numbers nor durations, hence
preserves field numericity. -/
theorem all_goodNums_recomputeTimes : ∀ (t : JsNum) (l : List Scene),
    (recomputeTimes t l).all goodNums = l.all goodNums
  | _, [] => rfl
  | t, s :: rest => by
    simp only [recomputeTimes, List.all_cons,
      all_goodNums_recomputeTimes (jsAdd t s.duration) rest]
    rfl

/-- Membership through stable insertion. -/
theorem mem_insertScene (x a : Scene) : ∀ (l : List Scene),
    x ∈ insertScene a l ↔ x = a ∨ x ∈ l
  | [] => by simp [insertScene]
  | y :: ys => by
    unfold insertScene
    cases h : sceneLe y a with
    | true =>
      simp only [if_true, List.mem_cons]
      rw [mem_insertScene x a ys]
      tauto
    | false =>
      simp only [Bool.false_eq_true, if_false, List.mem_cons]

/-- Membership through the insertion-sort fold. -/
theorem mem_sortScenesAux : ∀ (l acc : List Scene) (x : Scene),
    x ∈ l.foldl (fun acc y => insertScene y acc) acc ↔ x ∈ l ∨ x ∈ acc
  | [], acc, x => by simp
  | y :: ys, acc, x => by
    simp only [List.foldl_cons, List.mem_cons]
    rw [mem_sortScenesAux ys (insertScene y acc) x, mem_insertScene x y acc]
    tauto

/-- Comparator bridge: on numeric scene numbers, the sort's "may stay in
front" test coincides with the ascending comparison. -/
theorem sceneLe_eq_jsLeNum {a b : Scene} (ha : a.scene_number.isSome = true)
    (hb : b.scene_number.isSome = true) :
    sceneLe a b = jsLeNum a.scene_number b.scene_number := by
  obtain ⟨m, hm⟩ := Option.isSome_iff_exists.mp ha
  obtain ⟨n, hn⟩ := Option.isSome_iff_exists.mp hb
  simp only [sceneLe, jsSub, jsGtNum, jsLeNum, hm, hn, ← decide_not, decide_eq_decide]
  rw [not_lt, sub_nonpos]

/-- Comparator totality on numeric scene numbers. -/
theorem jsLeNum_total {a b : Scene} (ha : a.scene_number.isSome = true)
    (hb : b.scene_number.isSome = true) (h : sceneLe a b = false) :
    jsLeNum b.scene_number a.scene_number = true := by
  obtain ⟨m, hm⟩ := Option.isSome_iff_exists.mp ha
  obtain ⟨n, hn⟩ := Option.isSome_iff_exists.mp hb
  simp only [sceneLe, jsSub, jsGtNum, hm, hn, Bool.not_eq_false', decide_eq_true_eq] at h
  simp only [jsLeNum, hm, hn, decide_eq_true_eq]
  have : (0 : ℚ) < m - n := h
  linarith

/-- Inserting a numeric element into a sorted list of numeric elements keeps
it sorted. -/
theorem sortedOk_insertScene : ∀ (l : List Scene) (a : Scene), numOk a = true →
    (∀ x ∈ l, numOk x = true) → sortedOk l = true → sortedOk (insertScene a l) = true
  | [], a, _, _, _ => rfl
  | y :: ys, a, hga, hgl, hs => by
    have hgy : numOk y = true := hgl y (by simp)
    cases hle : sceneLe y a with
    | false =>
      have hya : jsLeNum a.scene_number y.scene_number = true := jsLeNum_total hgy hga hle
      simp only [insertScene, hle, Bool.false_eq_true, if_false]
      simp only [sortedOk, hya, Bool.true_and]
      exact hs
    | true =>
      have hys : sortedOk ys = true := by
        cases ys with
        | nil => rfl
        | cons z zs => exact (Bool.and_eq_true_iff.mp hs).2
      have ih := sortedOk_insertScene ys a hga (fun x hx => hgl x (by simp [hx])) hys
      simp only [insertScene, hle, if_true]
      cases ys with
      | nil =>
        have : jsLeNum y.scene_number a.scene_number = true := by
          rw [← sceneLe_eq_jsLeNum hgy hga]
          exact hle
        simp [insertScene, sortedOk, this]
      | cons z zs =>
        have hgz : numOk z = true := hgl z (by simp)
        have hyz : jsLeNum y.scene_number z.scene_number = true :=
          (Bool.and_eq_true_iff.mp hs).1
        cases hza : sceneLe z a with
        | true =>
          have heq : insertScene a (z :: zs) = z :: insertScene a zs := by
            simp [insertScene, hza]
          rw [heq]
          rw [heq] at ih
          simp only [sortedOk, hyz, Bool.true_and]
          exact ih
        | false =>
          have heq : insertScene a (z :: zs) = a :: z :: zs := by
            simp [insertScene, hza]
          rw [heq]
          have hya : jsLeNum y.scene_number a.scene_number = true := by
            rw [← sceneLe_eq_jsLeNum hgy hga]
            exact hle
          have haz : jsLeNum a.scene_number z.scene_number = true := jsLeNum_total hgz hga hza
          simp only [sortedOk, hya, haz, Bool.true_and]
          exact hys

/-- The insertion-sort fold of numeric elements is sorted. -/
theorem sortedOk_sortScenesAux : ∀ (l acc : List Scene), (∀ x ∈ l, numOk x = true) →
    (∀ x ∈ acc, numOk x = true) → sortedOk acc = true →
    sortedOk (l.foldl (fun acc y => insertScene y acc) acc) = true
  | [], acc, _, _, hs => hs
  | y :: ys, acc, hgl, hga, hs => by
    simp only [List.foldl_cons]
    refine sortedOk_sortScenesAux ys (insertScene y acc) (fun x hx => hgl x (by simp [hx]))
      (fun x hx => ?_) ?_
    · rcases (mem_insertScene x y acc).mp hx with h | h
      · subst h
        exact hgl x (by simp)
      · exact hga x h
    · exact sortedOk_insertScene acc y (hgl y (by simp)) hga hs

/-- Sortedness by scene number is untouched by time recomputation. -/
theorem sortedOk_recomputeTimes : ∀ (t : JsNum) (l : List Scene),
    sortedOk (recomputeTimes t l) = sortedOk l
  | _, [] => rfl
  | t, [s] => rfl
  | t, s :: b :: rest => by
    have ih := sortedOk_recomputeTimes (jsAdd t s.duration) (b :: rest)
    simp only [recomputeTimes, sortedOk] at ih ⊢
    rw [ih]

/-- Derived start/end times are exact when the running time and every
duration are numeric. -/
theorem recomputeTimes_times_ok : ∀ (l : List Scene) (t : JsNum), t.isSome = true →
    (∀ s ∈ l, s.duration.isSome = true) →
    endTimesOk (recomputeTimes t l) = true ∧ adjacentOk (recomputeTimes t l) = true
  | [], _, _, _ => ⟨rfl, rfl⟩
  | s :: rest, t, ht, hd => by
    obtain ⟨tv, htv⟩ := Option.isSome_iff_exists.mp ht
    obtain ⟨d, hdv⟩ := Option.isSome_iff_exists.mp (hd s (by simp))
    have hts : (jsAdd t s.duration).isSome = true := by simp [jsAdd, htv, hdv]
    have ih := recomputeTimes_times_ok rest (jsAdd t s.duration) hts
      (fun x hx => hd x (by simp [hx]))
    constructor
    · simp only [recomputeTimes, endTimesOk, List.all_cons]
      refine Bool.and_eq_true_iff.mpr ⟨?_, ih.1⟩
      simp [jsEqNum, jsAdd, htv, hdv]
    · cases rest with
      | nil => rfl
      | cons b br =>
        have hadj := ih.2
        simp only [recomputeTimes] at hadj
        simp only [recomputeTimes, adjacentOk]
        refine Bool.and_eq_true_iff.mpr ⟨?_, hadj⟩
        simp [jsEqNum, jsAdd, htv, hdv]

/-- Claim C3 counterexample: for the script whose first line's duration is
the unparseable text `ten`, the pushed record's duration is `NaN`, so the
derived end time and every later start time are `NaN`; under JavaScript
numeric equality (`NaN` equals nothing) the end-time equation and the
adjacent-pair contiguity of the claim are false, refuting the claim's
universal quantification over input scripts. -/
theorem parseScene_invariants_fail_on_nan_duration :
    (parseScene nanDurationScript).length = 2 ∧
    endTimesOk (parseScene nanDurationScript) = false ∧
    adjacentOk (parseScene nanDurationScript) = false ∧
    sceneInvariantsOk (parseScene nanDurationScript) = false := by
  with_unfolding_all decide

/-- Claim C3 as amended: for every script whose decomposition yields only
numeric (non-`NaN`) scene numbers and durations, the output of `parseScene`
is sorted ascending by scene number, its first scene starts at time 0, every
scene's end time is its start time plus its duration, and every adjacent pair
is contiguous. -/
theorem parseScene_invariants_when_numeric (resp : JStr)
    (h : (parseScene resp).all goodNums = true) :
    sceneInvariantsOk (parseScene resp) = true := by
  have hrw : parseScene resp =
      recomputeTimes (some 0) (sortScenes (firstPass (some 0) (splitCh '\n' resp))) := rfl
  set sl := sortScenes (firstPass (some 0) (splitCh '\n' resp)) with hsl
  have hgood : sl.all goodNums = true := by
    rw [hrw, all_goodNums_recomputeTimes] at h
    exact h
  have hmem : ∀ x ∈ sl, goodNums x = true := List.all_eq_true.mp hgood
  have hsorted : sortedOk sl = true := by
    rw [hsl]
    unfold sortScenes
    refine sortedOk_sortScenesAux _ [] (fun x hx => ?_) (by simp) rfl
    have hx2 : x ∈ sl := by
      rw [hsl]
      unfold sortScenes
      exact (mem_sortScenesAux _ [] x).mpr (Or.inl hx)
    exact Bool.and_eq_true_iff.mp (hmem x hx2) |>.1
  have hdur : ∀ s ∈ sl, s.duration.isSome = true := fun s hs =>
    (Bool.and_eq_true_iff.mp (hmem s hs)).2
  have htimes := recomputeTimes_times_ok sl (some 0) rfl hdur
  have hhead : headStartOk (recomputeTimes (some 0) sl) = true := by
    cases sl with
    | nil => rfl
    | cons s rest => simp [recomputeTimes, headStartOk, jsEqNum]
  rw [hrw]
  unfold sceneInvariantsOk
  rw [sortedOk_recomputeTimes, hsorted, hhead, htimes.1, htimes.2]
  rfl

/-- Witness for claim C3 at a concrete input: the out-of-order two-scene
script has numeric fields, and the amended invariants hold for it. -/
theorem parseScene_invariants_when_numeric_witness :
    sceneInvariantsOk (parseScene outOfOrderScript) = true :=
  parseScene_invariants_when_numeric outOfOrderScript (by with_unfolding_all decide)

/-- Results of a single-character split are never empty. -/
theorem splitCh_ne_nil (c : Char) : ∀ (s : JStr), splitCh c s ≠ []
  | [] => by simp [splitCh]
  | d :: r => by
    unfold splitCh
    cases h : splitCh c r with
    | nil => simp
    | cons g gs => cases hdc : d == c <;> simp [hdc]

/-- Splitting at a character absent from the string yields one group. -/
theorem splitCh_of_not_mem (c : Char) : ∀ (s : JStr), c ∉ s → splitCh c s = [s]
  | [], _ => rfl
  | d :: r, h => by
    have hd : (d == c) = false := beq_eq_false_iff_ne.mpr fun e => h (by simp [e])
    have ih := splitCh_of_not_mem c r fun hm => h (by simp [hm])
    simp [splitCh, ih, hd]

/-- Splitting after a prefix free of the separator character. -/
theorem splitCh_append (c : Char) : ∀ (a b : JStr), c ∉ a →
    splitCh c (a ++ c :: b) = a :: splitCh c b
  | [], b, _ => by
    cases h : splitCh c b with
    | nil => exact absurd h (splitCh_ne_nil c b)
    | cons g gs => simp [splitCh, h]
  | d :: a', b, h => by
    have hd : (d == c) = false := beq_eq_false_iff_ne.mpr fun e => h (by simp [e])
    have ih := splitCh_append c a' b fun hm => h (by simp [hm])
    simp [splitCh, ih, hd]

/-- Every string starts with its own prefix. -/
theorem startsWithJ_append_self : ∀ (x b : JStr), startsWithJ (x ++ b) x = true
  | [], _ => by simp [startsWithJ]
  | c :: x', b => by simp [startsWithJ, startsWithJ_append_self x' b]

/-- A separator whose first character is absent never occurs. -/
theorem splitFirstAt_none_of_not_mem (c : Char) (ss : JStr) : ∀ (t : JStr), c ∉ t →
    splitFirstAt (c :: ss) t = none
  | [], _ => rfl
  | d :: r, h => by
    have hd : (d == c) = false := beq_eq_false_iff_ne.mpr fun e => h (by simp [e])
    have ih := splitFirstAt_none_of_not_mem c ss r fun hm => h (by simp [hm])
    simp [splitFirstAt, startsWithJ, hd, ih]

/-- First occurrence of a separator sitting after a prefix free of its first
character. -/
theorem splitFirstAt_append (c : Char) (ss : JStr) : ∀ (a b : JStr), c ∉ a →
    splitFirstAt (c :: ss) (a ++ ((c :: ss) ++ b)) = some (a, b)
  | [], b, _ => by
    have h1 : startsWithJ ((c :: ss) ++ b) (c :: ss) = true := startsWithJ_append_self _ _
    show splitFirstAt (c :: ss) (c :: (ss ++ b)) = some ([], b)
    unfold splitFirstAt
    rw [show startsWithJ (c :: (ss ++ b)) (c :: ss) = true from h1]
    simp [List.drop_left]
  | d :: a', b, h => by
    have hd : (d == c) = false := beq_eq_false_iff_ne.mpr fun e => h (by simp [e])
    have ih := splitFirstAt_append c ss a' b fun hm => h (by simp [hm])
    simp only [List.cons_append] at ih
    simp [splitFirstAt, startsWithJ, hd, ih]

/-- Recomputing times preserves descriptions. -/
theorem recomputeTimes_map_text : ∀ (t : JsNum) (l : List Scene),
    (recomputeTimes t l).map Scene.text = l.map Scene.text
  | _, [] => rfl
  | t, s :: rest => by
    simp [recomputeTimes, recomputeTimes_map_text (jsAdd t s.duration) rest]

/-- Claim C10 as amended: for a qualifying line, the recorded description is
the realism directive followed by the text of the line's *pre-delimiter*
portion strictly between that portion's first and second `:` characters —
text after a second colon (still before the delimiter) is dropped. -/
theorem parseScene_description_between_colons_of_prefix (ds d1 d2 t : JStr)
    (hds : ':' ∉ ds ∧ '|' ∉ ds ∧ '\n' ∉ ds)
    (hd1 : ':' ∉ d1 ∧ '|' ∉ d1 ∧ '\n' ∉ d1)
    (hd2 : ':' ∉ d2 ∧ '|' ∉ d2 ∧ '\n' ∉ d2)
    (ht : '|' ∉ t ∧ '\n' ∉ t) :
    (parseScene (sceneLineOf ds d1 d2 t)).map Scene.text = [realismDirective ++ d1] := by
  have hdelim : durationDelim = '|' :: js " Duration:" := rfl
  have hpre : '|' ∉ preSeg ds d1 d2 := by
    intro hm
    simp only [preSeg, List.mem_append, List.mem_cons] at hm
    rcases hm with (hm | hm) | hm | hm
    · exact absurd hm (by decide)
    · exact hds.2.1 hm
    · exact absurd hm (by decide)
    · rcases hm with hm | hm | hm
      · exact hd1.2.1 hm
      · exact absurd hm (by decide)
      · exact hd2.2.1 hm
  have hocc : splitFirstAt durationDelim (sceneLineOf ds d1 d2 t)
      = some (preSeg ds d1 d2, t) := by
    rw [sceneLineOf, hdelim]
    exact splitFirstAt_append '|' (js " Duration:") (preSeg ds d1 d2) t hpre
  have hnone : splitFirstAt durationDelim t = none := by
    rw [hdelim]
    exact splitFirstAt_none_of_not_mem '|' (js " Duration:") t ht.1
  have hsplit2 : jsSplit2 durationDelim (sceneLineOf ds d1 d2 t)
      = some (preSeg ds d1 d2, t) := by
    simp [jsSplit2, hocc, hnone]
  have hA : startsWithJ (sceneLineOf ds d1 d2 t) sceneMarker = true := by
    have hshape : sceneLineOf ds d1 d2 t
        = js "SCENE" ++ (ds ++ ((':' :: (d1 ++ (':' :: d2))) ++ (durationDelim ++ t))) := by
      simp [sceneLineOf, preSeg, List.append_assoc]
    rw [hshape]
    exact startsWithJ_append_self (js "SCENE") _
  have hB : jsIncludes (sceneLineOf ds d1 d2 t) durationDelim = true := by
    simp [jsIncludes, hocc]
  have hcolA : ':' ∉ js "SCENE" ++ ds := by
    intro hm
    rcases List.mem_append.mp hm with hm | hm
    · exact absurd hm (by decide)
    · exact hds.1 hm
  have hcolons : splitCh ':' (preSeg ds d1 d2)
      = (js "SCENE" ++ ds) :: d1 :: splitCh ':' d2 := by
    rw [preSeg, splitCh_append ':' (js "SCENE" ++ ds) _ hcolA,
      splitCh_append ':' d1 d2 hd1.1]
  have hparse : parseSceneLine (sceneLineOf ds d1 d2 t)
      = some (realismDirective ++ d1,
          jsParseFloat (stripSeconds t),
          numOfInt (jsParseIntOpt (jsAt (splitCh ' '
            ((splitCh ':' (sceneLineOf ds d1 d2 t)).headD [])) 1))) := by
    unfold parseSceneLine
    rw [hA, hB, hsplit2]
    simp [hcolons, concatOpt, jsAt]
  have hnl : '\n' ∉ sceneLineOf ds d1 d2 t := by
    intro hm
    simp only [sceneLineOf, preSeg, List.mem_append, List.mem_cons] at hm
    rcases hm with ((hm | hm) | hm | hm) | hm | hm
    · exact absurd hm (by decide)
    · exact hds.2.2 hm
    · exact absurd hm (by decide)
    · rcases hm with hm | hm | hm
      · exact hd1.2.2 hm
      · exact absurd hm (by decide)
      · exact hd2.2.2 hm
    · exact absurd hm (by decide)
    · exact ht.2 hm
  unfold parseScene
  rw [splitCh_of_not_mem '\n' _ hnl]
  rw [recomputeTimes_map_text]
  simp [firstPass, hparse, sortScenes, insertScene]

set_option maxRecDepth 8000 in
/-- Claim C10 counterexample: for the ordinary sunrise line the text strictly
between the *line's* first and second colons is " A sunrise | Duration" —
the second colon of the line is the delimiter's — but the recorded
description is the realism directive followed by " A sunrise " (the text
before the delimiter after the first colon), so the claim's description of
the recorded text is false on this qualifying line. -/
theorem parseScene_description_not_between_line_colons :
    betweenFirstTwoColons sunriseLine = some (js " A sunrise | Duration") ∧
    (parseScene sunriseLine).map Scene.text = [realismDirective ++ js " A sunrise "] ∧
    (parseScene sunriseLine).map Scene.text
      ≠ [realismDirective ++ js " A sunrise | Duration"] := by
  with_unfolding_all decide

/-- Witness for claim C10 at a concrete structured line: text after the
second colon of the pre-delimiter portion is dropped from the description. -/
theorem parseScene_description_between_colons_of_prefix_witness :
    (parseScene (sceneLineOf (js " 1") (js " A sunrise") (js " extra stuff ")
        (js " 10 seconds"))).map Scene.text
      = [realismDirective ++ js " A sunrise"] :=
  parseScene_description_between_colons_of_prefix (js " 1") (js " A sunrise")
    (js " extra stuff ") (js " 10 seconds") (by decide) (by decide) (by decide) (by decide)

/-- Trace shape A: failure before any stage update. -/
theorem c7_shape_fail_early (msg : String) :
    List.Chain' (· ≤ ·) ((statesOf [updRunning10, updFailed msg]).map Task.progress) ∧
      (dedupAdj ((statesOf [updRunning10, updFailed msg]).map Task.status)
          = ["pending", "running", "completed"] ∨
        dedupAdj ((statesOf [updRunning10, updFailed msg]).map Task.status)
          = ["pending", "running", "failed"]) := by
  have hp : (statesOf [updRunning10, updFailed msg]).map Task.progress = [0, 10, 10] := by
    simp [statesOf, applyUpdates, createTask, updRunning10, updFailed]
  have hst : (statesOf [updRunning10, updFailed msg]).map Task.status
      = ["pending", "running", "failed"] := by
    simp [statesOf, applyUpdates, createTask, updRunning10, updFailed]
  rw [hp, hst]
  exact ⟨by norm_num [List.chain'_cons], Or.inr (by decide)⟩

/-- Trace shape B: failure right after the Visual-Stage update. -/
theorem c7_shape_fail_at40 (msg : String) :
    List.Chain' (· ≤ ·)
        ((statesOf [updRunning10, upd30, upd40, updFailed msg]).map Task.progress) ∧
      (dedupAdj ((statesOf [updRunning10, upd30, upd40, updFailed msg]).map Task.status)
          = ["pending", "running", "completed"] ∨
        dedupAdj ((statesOf [updRunning10, upd30, upd40, updFailed msg]).map Task.status)
          = ["pending", "running", "failed"]) := by
  have hp : (statesOf [updRunning10, upd30, upd40, updFailed msg]).map Task.progress
      = [0, 10, 30, 40, 40] := by
    simp [statesOf, applyUpdates, createTask, updRunning10, upd30, upd40, updFailed]
  have hst : (statesOf [updRunning10, upd30, upd40, updFailed msg]).map Task.status
      = ["pending", "running", "running", "running", "failed"] := by
    simp [statesOf, applyUpdates, createTask, updRunning10, upd30, upd40, updFailed]
  rw [hp, hst]
  exact ⟨by norm_num [List.chain'_cons], Or.inr (by decide)⟩

/-- Trace shape C: failure after all stage updates. -/
theorem c7_shape_fail_late (msg : String) :
    List.Chain' (· ≤ ·)
        ((statesOf [updRunning10, upd30, upd40, upd60, upd80, updFailed msg]).map
          Task.progress) ∧
      (dedupAdj ((statesOf [updRunning10, upd30, upd40, upd60, upd80, updFailed msg]).map
            Task.status)
          = ["pending", "running", "completed"] ∨
        dedupAdj ((statesOf [updRunning10, upd30, upd40, upd60, upd80, updFailed msg]).map
            Task.status)
          = ["pending", "running", "failed"]) := by
  have hp : (statesOf [updRunning10, upd30, upd40, upd60, upd80, updFailed msg]).map
      Task.progress = [0, 10, 30, 40, 60, 80, 80] := by
    simp [statesOf, applyUpdates, createTask, updRunning10, upd30, upd40, upd60, upd80,
      updFailed]
  have hst : (statesOf [updRunning10, upd30, upd40, upd60, upd80, updFailed msg]).map
      Task.status = ["pending", "running", "running", "running", "running", "running",
        "failed"] := by
    simp [statesOf, applyUpdates, createTask, updRunning10, upd30, upd40, upd60, upd80,
      updFailed]
  rw [hp, hst]
  exact ⟨by norm_num [List.chain'_cons], Or.inr (by decide)⟩

/-- Trace shape D: successful completion. -/
theorem c7_shape_completed (p : JStr) :
    List.Chain' (· ≤ ·)
        ((statesOf [updRunning10, upd30, upd40, upd60, upd80, updCompleted p]).map
          Task.progress) ∧
      (dedupAdj ((statesOf [updRunning10, upd30, upd40, upd60, upd80, updCompleted p]).map
            Task.status)
          = ["pending", "running", "completed"] ∨
        dedupAdj ((statesOf [updRunning10, upd30, upd40, upd60, upd80, updCompleted p]).map
            Task.status)
          = ["pending", "running", "failed"]) := by
  have hp : (statesOf [updRunning10, upd30, upd40, upd60, upd80, updCompleted p]).map
      Task.progress = [0, 10, 30, 40, 60, 80, 100] := by
    simp [statesOf, applyUpdates, createTask, updRunning10, upd30, upd40, upd60, upd80,
      updCompleted]
  have hst : (statesOf [updRunning10, upd30, upd40, upd60, upd80, updCompleted p]).map
      Task.status = ["pending", "running", "running", "running", "running", "running",
        "completed"] := by
    simp [statesOf, applyUpdates, createTask, updRunning10, upd30, upd40, upd60, upd80,
      updCompleted]
  rw [hp, hst]
  exact ⟨by norm_num [List.chain'_cons], Or.inl (by decide)⟩

/-- Stage traces of a single-scene run: either an error with only the
Visual-Stage update written, or a full stage trace with an `ok` result. -/
theorem generateStage_single_shapes (P : Providers) (s0 : Scene) :
    ((generateStage P [s0]).trace = [upd40] ∧
      (generateStage P [s0]).result = Except.error runwayFailMsg) ∨
    ((generateStage P [s0]).trace = [upd40, upd60, upd80] ∧
      ∃ vp, (generateStage P [s0]).result = Except.ok vp) := by
  unfold generateStage
  rcases hm : P.motionPrompt 0 with em | content
  · refine Or.inl ?_
    simp [generateVisualsForScenes, visualsGo, buildVideoScripts, hm]
  · refine Or.inr ?_
    simp [generateVisualsForScenes, visualsGo, buildVideoScripts, hm,
      generateVideoWithRunwayBody, clipsGo]

/-- Claim C7: over one orchestrated task, the registry's progress values are
non-decreasing over time, and the recorded state sequence (with adjacent
repeats collapsed) is either `pending, running, completed` or `pending,
running, failed` — no transition skips `running` and none leaves a terminal
state. -/
theorem task_progress_monotone_and_status_wellformed (P : Providers) :
    List.Chain' (· ≤ ·) ((videoTaskStates P).map Task.progress) ∧
      (dedupAdj ((videoTaskStates P).map Task.status)
          = ["pending", "running", "completed"] ∨
        dedupAdj ((videoTaskStates P).map Task.status)
          = ["pending", "running", "failed"]) := by
  have hrw : videoTaskStates P = statesOf (generateVideoModel P).trace := rfl
  rcases hs : P.script with e | resp
  · have ht : (generateVideoModel P).trace = [updRunning10, updFailed scriptFailMsg] := by
      simp [generateVideoModel, hs]
    rw [hrw, ht]
    exact c7_shape_fail_early scriptFailMsg
  · rcases hps : parseScene resp with _ | ⟨s0, rest⟩
    · have ht : (generateVideoModel P).trace = [updRunning10, updFailed parseFailMsg] := by
        simp [generateVideoModel, hs, hps]
      rw [hrw, ht]
      exact c7_shape_fail_early parseFailMsg
    · have htake : (parseScene resp).take 1 = [s0] := by
        rw [hps]
        rfl
      rcases generateStage_single_shapes P s0 with ⟨htr, hres⟩ | ⟨htr, vp, hres⟩
      · have ht : (generateVideoModel P).trace
            = [updRunning10, upd30, upd40, updFailed runwayFailMsg] := by
          simp [generateVideoModel, hs, hps, htake, htr, hres]
        rw [hrw, ht]
        exact c7_shape_fail_at40 runwayFailMsg
      · rcases vp with _ | p
        · have ht : (generateVideoModel P).trace
              = [updRunning10, upd30, upd40, upd60, upd80, updFailed genFailMsg] := by
            simp [generateVideoModel, hs, hps, htake, htr, hres]
          rw [hrw, ht]
          exact c7_shape_fail_late genFailMsg
        · cases hp : p.isEmpty with
          | true =>
            have ht : (generateVideoModel P).trace
                = [updRunning10, upd30, upd40, upd60, upd80, updFailed genFailMsg] := by
              simp [generateVideoModel, hs, hps, htake, htr, hres, hp]
            rw [hrw, ht]
            exact c7_shape_fail_late genFailMsg
          | false =>
            have ht : (generateVideoModel P).trace
                = [updRunning10, upd30, upd40, upd60, upd80, updCompleted p] := by
              simp [generateVideoModel, hs, hps, htake, htr, hres, hp]
            rw [hrw, ht]
            exact c7_shape_completed p

end AdGen
